import Mathlib

/-!
Shallow embedding of the `ButtonGroup` component
(`src/website/app/demos/ButtonGroup/examples/variants.js`, lines 172-506:
`isChecked`, `findDefaultChecked`, the `state` initializer, `render`,
`handleClick`, `clickActions`, `isControlled`, `getControllableValue`).

JS numbers that occur as child indices are modelled as `Int` (the code uses
`-1` as a sentinel and `parseInt` on `data-index`).  The `checked` value held
in state or supplied through props is `number | Array<number>`, modelled by
the inductive `Checked`.  JS truthiness of those values is modelled by
`truthyChecked` (`0` is falsy, every other number is truthy, every array --
including the empty one -- is truthy).
-/

namespace ButtonGroup

/-- `mode?: 'checkbox' | 'radio'` -- the optional behavioural mode prop.
An absent mode (`Option.none` at the use sites) is the "plain buttons" case. -/
inductive Mode where
  | checkbox
  | radio
deriving DecidableEq, Repr

/-- `variant?: 'danger' | 'success' | 'warning'` -/
inductive Variant where
  | danger
  | success
  | warning
deriving DecidableEq, Repr

/-- `size?: 'small' | 'medium' | 'large' | 'jumbo'` -/
inductive Size where
  | small
  | medium
  | large
  | jumbo
deriving DecidableEq, Repr

/-- A `number | Array<number>` value, the shape of both the `checked` /
`defaultChecked` props and of `state.checked` after initialization. -/
inductive Checked where
  | num (n : Int)
  | arr (l : List Int)
deriving DecidableEq, Repr

/-- JS truthiness of a `number | Array<number>` value: a number is truthy
iff it is nonzero; an array is always truthy, even when empty. -/
def truthyChecked : Checked → Bool
  | .num n => n != 0
  | .arr _ => true

/-- The per-child props the group reads off each Button child:
`defaultChecked`, `disabled`, and the child's own `size` / `variant`. -/
structure ChildProps where
  defaultChecked : Bool
  disabled : Bool
  size : Option Size
  variant : Option Variant
deriving DecidableEq, Repr

/-- The ButtonGroup props relevant to selection logic.  `checked = some _`
models `this.props.hasOwnProperty('checked')` (controlled mode);
`onChange` / `onClick` record whether the caller supplied those callbacks. -/
structure GroupProps where
  checked : Option Checked
  defaultChecked : Option Checked
  children : List ChildProps
  disabled : Bool
  mode : Option Mode
  onChange : Bool
  onClick : Bool
  size : Option Size
  variant : Option Variant
deriving DecidableEq, Repr

/-- Component state: `state = { checked: ... }`. -/
structure State where
  checked : Checked
deriving DecidableEq, Repr

/-- `isChecked` (source lines 345-349):
`Array.isArray(checked) ? checked.indexOf(index) !== -1 : checked === index`. -/
def isChecked (checked : Checked) (index : Int) : Bool :=
  match checked with
  | .arr l => l.contains index
  | .num n => n == index

/-- `findDefaultChecked` (source lines 351-383).  For `mode === 'checkbox'`
it collects the index of every child whose `defaultChecked` prop is set;
otherwise (radio or no mode) it takes the first such child, if any.  It
always returns an array (`checked` starts as `[]` and is only ever replaced
by another array). -/
def findDefaultChecked (props : GroupProps) : Checked :=
  match props.mode with
  | some .checkbox =>
      .arr ((props.children.enum.filter (fun p => p.2.defaultChecked)).map
        (fun p => (p.1 : Int)))
  | _ =>
      match props.children.findIdx? (fun c => c.defaultChecked) with
      | some i => .arr [(i : Int)]
      | none => .arr []

/-- The `state` initializer (source line 397):
`this.props.defaultChecked || findDefaultChecked(this.props) || -1`,
with JS truthiness made explicit: a supplied `defaultChecked` wins only when
truthy (so the number `0` falls through), and the `|| -1` arm is reached only
when `findDefaultChecked`'s result is falsy (it never is: it is an array). -/
def initialChecked (props : GroupProps) : Checked :=
  match props.defaultChecked with
  | some c =>
      if truthyChecked c then c
      else if truthyChecked (findDefaultChecked props) then findDefaultChecked props
      else .num (-1)
  | none =>
      if truthyChecked (findDefaultChecked props) then findDefaultChecked props
      else .num (-1)

/-- `isControlled('checked')` (source lines 499-501):
`this.props.hasOwnProperty('checked')`. -/
def isControlled (props : GroupProps) : Bool :=
  props.checked.isSome

/-- `getControllableValue('checked')` (source lines 503-505): the controlled
prop when present, the internal state otherwise. -/
def getControllableValue (props : GroupProps) (st : State) : Checked :=
  match props.checked with
  | some c => c
  | none => st.checked

/-- Modelled from the spec: the `toArray` helper imported from
`../utils/collections` is not under `src/`.  Per the spec's selection model
(a scalar selection and its singleton-array form are interchangeable, SS3/SS4.1)
it wraps a non-array value in a singleton array and returns an array as is. -/
def toArray : Checked → List Int
  | .arr l => l
  | .num n => [n]

/-- The observable events a click produces, in order:
`commit c` -- React commits `{ checked: c }` to state;
`clickCb` -- the group-level `onClick` callback is invoked;
`changeCb` -- the group-level `onChange` callback is invoked. -/
inductive Ev where
  | commit (c : Checked)
  | clickCb
  | changeCb
deriving DecidableEq, Repr

/-- `clickActions` (source lines 489-497): `onClick && onClick(event);
changed && onChange && onChange(event)` -- the click callback fires whenever
supplied; the change callback fires only when supplied and `changed`. -/
def clickActions (props : GroupProps) (changed : Bool) : List Ev :=
  (if props.onClick then [Ev.clickCb] else []) ++
  (if changed && props.onChange then [Ev.changeCb] else [])

/-- The checkbox branch of `handleClick`'s state updater (source lines
464-474): `splice` at `indexOf` removes the first occurrence of the clicked
index when present, otherwise `push` appends it. -/
def checkboxNext (prev : List Int) (index : Int) : List Int :=
  if prev.contains index then prev.erase index else prev ++ [index]

/-- The state updater of `handleClick` (source lines 462-481): next `checked`
value and the `changed` flag.  In checkbox mode `changed` keeps its initial
value `true`; in radio mode `changed = toArray(prevState.checked)[0] !==
checked` (`[0]` of an empty array is `undefined`, which differs from every
number, modelled by `List.head?`). -/
def selectionUpdate (mode : Mode) (prev : Checked) (index : Int) :
    Checked × Bool :=
  match mode with
  | .checkbox => (.arr (checkboxNext (toArray prev) index), true)
  | .radio => (.num index, (toArray prev).head? != some index)

/-- `handleClick` (source lines 447-487) as a pure transition: given the
props, the current state and the clicked child's `data-index`, produce the
next state and the ordered trace of observable events.  Without a mode it
stops at `clickActions(event, false)`; when controlled it runs
`clickActions(event)` (default `changed = true`) without touching state;
otherwise it commits the updated selection via `setState` and runs
`clickActions(event, changed)` in the `setState` completion callback, i.e.
after the commit. -/
def handleClick (props : GroupProps) (st : State) (index : Int) :
    State × List Ev :=
  match props.mode with
  | none => (st, clickActions props false)
  | some mode =>
      if isControlled props then
        (st, clickActions props true)
      else
        let r := selectionUpdate mode st.checked index
        (⟨r.1⟩, Ev.commit r.1 :: clickActions props r.2)

/-- The per-child attributes `render` computes (source lines 421-442),
restricted to the fields the claims are about.  `primary` records whether the
`primary: true` entry was spread in. -/
structure Decorated where
  ariaChecked : Option Bool
  dataIndex : Nat
  disabled : Bool
  primary : Bool
  role : Option Mode
  size : Option Size
  variant : Option Variant
deriving DecidableEq, Repr

/-- One child's decoration in `render` (source lines 421-442).  `cloneElement`
merges the given config over the child's own props, so every key present in
the config clobbers the child's value: `size` is always in the config, while
`variant` is spread in only when the group-level `variant` is truthy
(`...(variant ? { variant } : undefined)`). -/
def decorateChild (props : GroupProps) (checkedVal : Checked) (index : Nat)
    (child : ChildProps) : Decorated :=
  let isChildToggleable :=
    props.mode = some Mode.radio ∨ props.mode = some Mode.checkbox
  let isChildChecked := isChecked checkedVal (index : Int)
  { ariaChecked := if isChildToggleable then some isChildChecked else none
    dataIndex := index
    disabled := props.disabled || child.disabled
    primary := decide isChildToggleable && isChildChecked
    role := if isChildToggleable then props.mode else none
    size := props.size
    variant := match props.variant with
      | some v => some v
      | none => child.variant }

/-- The full decorated child list of one `render` pass. -/
def renderChildren (props : GroupProps) (st : State) : List Decorated :=
  props.children.enum.map (fun p => decorateChild props (getControllableValue props st) p.1 p.2)

/-- React gives the class no `getDerivedStateFromProps` /
`componentWillReceiveProps`: when the props (children included) change, the
component instance's state is carried over untouched to the next render. -/
def stateAfterPropsChange (st : State) : State := st

/-- The number of children among indices `0..n-1` that the current selection
marks checked. -/
def checkedCount (c : Checked) (n : Nat) : Nat :=
  ((List.range n).filter (fun i => isChecked c (Int.ofNat i))).length

end ButtonGroup

namespace ButtonGroup

/-! Concrete prop configurations used in scenario conjuncts and witnesses. -/

/-- A Button child with no selection-relevant props set. -/
def plainChild : ChildProps :=
  { defaultChecked := false, disabled := false, size := none, variant := none }

/-- `mode="checkbox"`, three children, none default-checked, both callbacks
supplied, uncontrolled (the spec's multi-select scenario). -/
def props3checkbox : GroupProps :=
  { checked := none, defaultChecked := none
    children := [plainChild, plainChild, plainChild]
    disabled := false, mode := some Mode.checkbox
    onChange := true, onClick := true, size := none, variant := none }

/-- `mode="radio"`, three children, none default-checked, both callbacks
supplied, uncontrolled. -/
def props3radio : GroupProps :=
  { props3checkbox with mode := some Mode.radio }

/-- The disabled-demo configuration (source lines 129-133): `mode="radio"`,
`defaultChecked={0}`, three children, none default-checked itself. -/
def demoRadioDefault0 : GroupProps :=
  { props3radio with defaultChecked := some (Checked.num 0) }

/-- A controlled group: `checked={0}` supplied, `mode="radio"`. -/
def controlledRadio : GroupProps :=
  { props3radio with checked := some (Checked.num 0) }

/-- A group with no `mode` prop. -/
def propsNoMode : GroupProps :=
  { props3checkbox with mode := none }

/-- A child that sets its own `variant="success"` and `size="small"`. -/
def successChild : ChildProps :=
  { defaultChecked := false, disabled := false
    size := some Size.small, variant := some Variant.success }

/-- A group that sets `variant="danger"` and `size="large"` at group level. -/
def dangerGroup : GroupProps :=
  { props3checkbox with variant := some Variant.danger, size := some Size.large }

/-! Claim theorems. -/

/-- C10: child checked-decoration treats a scalar selection and its
singleton-array form identically: for every index `i` and number `n`,
`isChecked (num n) i = isChecked (arr [n]) i` (membership test: `i` equals
the scalar, or `i` is an element of the array). -/
theorem C10_scalar_singleton_agree (n i : Int) :
    isChecked (Checked.num n) i = isChecked (Checked.arr [n]) i := by
  show (n == i) = ([n].contains i)
  rcases eq_or_ne n i with h | h
  · subst h; simp
  · simp [h, Ne.symm h]

end ButtonGroup

namespace ButtonGroup

/-- C3 (code bug): the claim says a supplied `defaultChecked` always wins
over scanning the children, for every index including `0`.  The initializer
`this.props.defaultChecked || findDefaultChecked(this.props) || -1` treats
the number `0` as falsy, so `defaultChecked={0}` (the repo's own disabled
demo, source lines 129-133) falls through to the scan, which here finds no
default-checked child and returns `[]`: child 0 is not checked.  A nonzero
index (here `1`) does take precedence. -/
theorem C3_default_zero_falls_through :
    initialChecked demoRadioDefault0 = Checked.arr [] ∧
    isChecked (initialChecked demoRadioDefault0) 0 = false ∧
    initialChecked { demoRadioDefault0 with defaultChecked := some (Checked.num 1) }
      = Checked.num 1 := by
  decide

/-- C4 (counterexample): a child carrying `variant="success"` inside a group
with `variant="danger"` is decorated with the group's variant -- the config
spread `...(variant ? { variant } : undefined)` passed to `cloneElement`
clobbers the child's own prop -- contradicting "child-level variant wins even
when a group-level variant is set". -/
theorem C4_counterexample :
    (decorateChild dangerGroup (Checked.arr []) 0 successChild).variant
      = some Variant.danger ∧
    successChild.variant = some Variant.success := by
  decide

/-- C4 (amended): a group-level `variant`, when set, overrides every child's
own variant; a child keeps its variant only when the group sets none; the
group-level `size` is unconditionally propagated to every child. -/
theorem C4_group_variant_overrides (props : GroupProps) (c : Checked) (i : Nat)
    (child : ChildProps) (v : Variant) :
    (decorateChild { props with variant := some v } c i child).variant = some v ∧
    (decorateChild { props with variant := none } c i child).variant = child.variant ∧
    (decorateChild props c i child).size = props.size :=
  ⟨rfl, rfl, rfl⟩

/-- C5: when the `checked` prop is supplied (controlled), no click -- in any
mode -- ever writes the internal state, and with a toggleable mode set the
change callback fires unconditionally whenever supplied (the code calls
`clickActions(event)` with the default `changed = true`). -/
theorem C5_controlled_click (props : GroupProps) (st : State) (i : Int)
    (hc : isControlled props = true) :
    (handleClick props st i).1 = st ∧
    (∀ m : Mode, props.mode = some m → props.onChange = true →
      Ev.changeCb ∈ (handleClick props st i).2) := by
  constructor
  · cases hm : props.mode <;> simp [handleClick, hm, hc]
  · intro m hm ho
    simp [handleClick, hm, hc, clickActions, ho]

/-- C5 witness: the controlled radio group, clicking index 1. -/
theorem C5_controlled_click_witness :
    isControlled controlledRadio = true ∧
    (handleClick controlledRadio ⟨Checked.num 0⟩ 1).1 = ⟨Checked.num 0⟩ ∧
    Ev.changeCb ∈ (handleClick controlledRadio ⟨Checked.num 0⟩ 1).2 :=
  ⟨by decide,
    (C5_controlled_click controlledRadio ⟨Checked.num 0⟩ 1 (by decide)).1,
    (C5_controlled_click controlledRadio ⟨Checked.num 0⟩ 1 (by decide)).2
      Mode.radio rfl rfl⟩

/-- C6: with no `mode` prop, a click leaves the state unchanged, never fires
the change callback, and still fires the group-level click callback whenever
supplied (`clickActions(event, false)`). -/
theorem C6_no_mode_click (props : GroupProps) (st : State) (i : Int)
    (hm : props.mode = none) :
    (handleClick props st i).1 = st ∧
    Ev.changeCb ∉ (handleClick props st i).2 ∧
    (props.onClick = true → Ev.clickCb ∈ (handleClick props st i).2) := by
  cases hk : props.onClick <;> simp [handleClick, hm, clickActions, hk]

/-- C6 witness: the mode-less group, clicking index 0. -/
theorem C6_no_mode_click_witness :
    propsNoMode.mode = none ∧
    (handleClick propsNoMode ⟨Checked.arr []⟩ 0).1 = ⟨Checked.arr []⟩ ∧
    Ev.changeCb ∉ (handleClick propsNoMode ⟨Checked.arr []⟩ 0).2 ∧
    Ev.clickCb ∈ (handleClick propsNoMode ⟨Checked.arr []⟩ 0).2 :=
  ⟨rfl, (C6_no_mode_click propsNoMode ⟨Checked.arr []⟩ 0 rfl).1,
    (C6_no_mode_click propsNoMode ⟨Checked.arr []⟩ 0 rfl).2.1,
    (C6_no_mode_click propsNoMode ⟨Checked.arr []⟩ 0 rfl).2.2 rfl⟩

end ButtonGroup

namespace ButtonGroup

/-- The clicked index is a member of `checkboxNext prev i` iff it was not a
member before: `push` adds an absent index, `splice` at `indexOf` removes the
only occurrence of a present one (the selection list holds no duplicates). -/
lemma checkboxNext_mem_self (l : List Int) (i : Int) (h : l.Nodup) :
    i ∈ checkboxNext l i ↔ i ∉ l := by
  by_cases hm : i ∈ l
  · have hc : l.contains i = true := List.elem_iff.mpr hm
    simp only [checkboxNext, hc, if_pos]
    exact iff_of_false (h.not_mem_erase) (by simp [hm])
  · have hc : l.contains i = false := by
      simp [List.elem_iff, hm]
    simp [checkboxNext, hc, hm]

/-- Membership of every other index is untouched by `checkboxNext`. -/
lemma checkboxNext_mem_other (l : List Int) (i j : Int) (hj : j ≠ i) :
    j ∈ checkboxNext l i ↔ j ∈ l := by
  by_cases hm : i ∈ l
  · have hc : l.contains i = true := List.elem_iff.mpr hm
    simp only [checkboxNext, hc, if_pos]
    exact List.mem_erase_of_ne hj
  · have hc : l.contains i = false := by
      simp [List.elem_iff, hm]
    simp [checkboxNext, hc, hm, hj]

/-- C1: an uncontrolled single-select (radio) click on index `i` sets the
selection to the singleton `{i}` (a child `j` is decorated checked iff
`j = i`); the change callback fires iff `i` differs from the previous
selection's sole member (`toArray(prev)[0]`, which is `undefined` -- hence a
difference -- when the previous selection was empty); clicking the
already-selected index leaves the state unchanged, so it is not deselected
and the change callback does not fire. -/
theorem C1_radio_click (props : GroupProps) (st : State) (i : Int)
    (hc : props.checked = none) (hm : props.mode = some Mode.radio)
    (ho : props.onChange = true) :
    (handleClick props st i).1.checked = Checked.num i ∧
    (∀ j : Int, isChecked (handleClick props st i).1.checked j = (j == i)) ∧
    (Ev.changeCb ∈ (handleClick props st i).2 ↔
      (toArray st.checked).head? ≠ some i) ∧
    (st.checked = Checked.num i → (handleClick props st i).1 = st) := by
  have hic : isControlled props = false := by simp [isControlled, hc]
  refine ⟨?_, ?_, ?_, ?_⟩
  · simp [handleClick, hm, hic, selectionUpdate]
  · intro j
    simp only [handleClick, hm, hic, selectionUpdate, Bool.false_eq_true,
      if_false, isChecked]
    exact Bool.beq_comm
  · cases hk : props.onClick <;>
      simp [handleClick, hm, hic, selectionUpdate, clickActions, ho, hk,
        bne_iff_ne]
  · intro h
    obtain ⟨c⟩ := st
    simp only [State.mk.injEq] at h
    subst h
    simp [handleClick, hm, hic, selectionUpdate]

/-- C1 witness: uncontrolled radio group, previous selection the `-1`
sentinel, clicking index 2. -/
theorem C1_radio_click_witness :
    props3radio.checked = none ∧
    (handleClick props3radio ⟨Checked.num (-1)⟩ 2).1.checked = Checked.num 2 ∧
    (Ev.changeCb ∈ (handleClick props3radio ⟨Checked.num (-1)⟩ 2).2 ↔
      (toArray (Checked.num (-1))).head? ≠ some 2) :=
  ⟨rfl, (C1_radio_click props3radio ⟨Checked.num (-1)⟩ 2 rfl rfl rfl).1,
    (C1_radio_click props3radio ⟨Checked.num (-1)⟩ 2 rfl rfl rfl).2.2.1⟩

/-- C2: an uncontrolled multi-select (checkbox) click on index `i` toggles
membership of `i` in the selection set (adds it if absent, removes it if
present), leaves every other index's membership unchanged, and always fires
the change callback.  Concretely, in a 3-child checkbox group with nothing
default-checked the selection starts empty, clicking index 1 yields `[1]`
with the change callback fired, and clicking index 1 again yields `[]` with
the change callback fired. -/
theorem C2_checkbox_click (props : GroupProps) (st : State) (i : Int)
    (hc : props.checked = none) (hm : props.mode = some Mode.checkbox)
    (ho : props.onChange = true) (hnd : (toArray st.checked).Nodup) :
    isChecked (handleClick props st i).1.checked i = !isChecked st.checked i ∧
    (∀ j : Int, j ≠ i →
      isChecked (handleClick props st i).1.checked j = isChecked st.checked j) ∧
    Ev.changeCb ∈ (handleClick props st i).2 ∧
    initialChecked props3checkbox = Checked.arr [] ∧
    handleClick props3checkbox ⟨Checked.arr []⟩ 1 =
      (⟨Checked.arr [1]⟩,
        [Ev.commit (Checked.arr [1]), Ev.clickCb, Ev.changeCb]) ∧
    handleClick props3checkbox ⟨Checked.arr [1]⟩ 1 =
      (⟨Checked.arr []⟩,
        [Ev.commit (Checked.arr []), Ev.clickCb, Ev.changeCb]) := by
  have hic : isControlled props = false := by simp [isControlled, hc]
  have hmem : ∀ c : Checked, ∀ j : Int, isChecked c j = true ↔ j ∈ toArray c := by
    intro c j
    cases c with
    | num n =>
        simp only [isChecked, toArray, List.mem_singleton, beq_iff_eq]
        exact ⟨fun h => h.symm, fun h => h.symm⟩
    | arr l => simp [isChecked, toArray, List.elem_iff]
  refine ⟨?_, ?_, ?_, by decide, by decide, by decide⟩
  · simp only [handleClick, hm, hic, Bool.false_eq_true, if_false,
      selectionUpdate]
    cases hprev : isChecked st.checked i with
    | false =>
        have hnot : i ∉ toArray st.checked := fun hin => by
          rw [(hmem st.checked i).mpr hin] at hprev
          exact Bool.true_eq_false.mp hprev
        have hin : i ∈ checkboxNext (toArray st.checked) i :=
          (checkboxNext_mem_self _ i hnd).mpr hnot
        have hcont :
            isChecked (Checked.arr (checkboxNext (toArray st.checked) i)) i
              = true :=
          (hmem (Checked.arr (checkboxNext (toArray st.checked) i)) i).mpr hin
        simp [hcont]
    | true =>
        have hin : i ∈ toArray st.checked := (hmem st.checked i).mp hprev
        have hnot : i ∉ checkboxNext (toArray st.checked) i := fun hmm =>
          ((checkboxNext_mem_self _ i hnd).mp hmm) hin
        have hcont :
            isChecked (Checked.arr (checkboxNext (toArray st.checked) i)) i
              = false := by
          cases hcc :
              isChecked (Checked.arr (checkboxNext (toArray st.checked) i)) i
          · rfl
          · exact absurd
              ((hmem (Checked.arr (checkboxNext (toArray st.checked) i)) i).mp
                hcc) hnot
        simp [hcont]
  · intro j hj
    simp only [handleClick, hm, hic, Bool.false_eq_true, if_false,
      selectionUpdate]
    apply Bool.coe_iff_coe.mp
    rw [hmem (Checked.arr (checkboxNext (toArray st.checked) i)) j,
      hmem st.checked j]
    exact checkboxNext_mem_other _ i j hj
  · cases hk : props.onClick <;>
      simp [handleClick, hm, hic, selectionUpdate, clickActions, ho, hk]

/-- C2 witness: the 3-child checkbox group, empty selection, clicking
index 1. -/
theorem C2_checkbox_click_witness :
    (toArray (Checked.arr [])).Nodup ∧
    isChecked (handleClick props3checkbox ⟨Checked.arr []⟩ 1).1.checked 1
      = !isChecked (Checked.arr []) 1 ∧
    Ev.changeCb ∈ (handleClick props3checkbox ⟨Checked.arr []⟩ 1).2 :=
  ⟨by decide,
    (C2_checkbox_click props3checkbox ⟨Checked.arr []⟩ 1 rfl rfl rfl
      (by decide)).1,
    (C2_checkbox_click props3checkbox ⟨Checked.arr []⟩ 1 rfl rfl rfl
      (by decide)).2.2.1⟩

end ButtonGroup

namespace ButtonGroup

/-- C7: on every uncontrolled toggleable click the group-level click callback
is invoked, and the state commit is the first event of the trace -- carrying
exactly the value the new state holds -- so the change callback, which can
only occur later in the trace, observes the post-update selection. -/
theorem C7_commit_before_callbacks (props : GroupProps) (st : State) (i : Int)
    (m : Mode) (hc : props.checked = none) (hm : props.mode = some m)
    (hk : props.onClick = true) :
    ∃ rest, (handleClick props st i).2
        = Ev.commit (handleClick props st i).1.checked :: rest ∧
      Ev.clickCb ∈ rest ∧
      (Ev.changeCb ∈ (handleClick props st i).2 → Ev.changeCb ∈ rest) := by
  have hic : isControlled props = false := by simp [isControlled, hc]
  have heq : (handleClick props st i).2
      = Ev.commit (selectionUpdate m st.checked i).1
        :: clickActions props (selectionUpdate m st.checked i).2 := by
    simp [handleClick, hm, hic]
  have hst : (handleClick props st i).1.checked
      = (selectionUpdate m st.checked i).1 := by
    simp [handleClick, hm, hic]
  refine ⟨clickActions props (selectionUpdate m st.checked i).2, ?_, ?_, ?_⟩
  · rw [heq, hst]
  · simp [clickActions, hk]
  · intro hch
    rw [heq] at hch
    rcases List.mem_cons.mp hch with h | h
    · exact absurd h (by simp)
    · exact h

/-- C7 witness: uncontrolled radio group, clicking index 0. -/
theorem C7_commit_before_callbacks_witness :
    props3radio.checked = none ∧
    ∃ rest, (handleClick props3radio ⟨Checked.num (-1)⟩ 0).2
        = Ev.commit (handleClick props3radio ⟨Checked.num (-1)⟩ 0).1.checked
          :: rest ∧
      Ev.clickCb ∈ rest ∧
      (Ev.changeCb ∈ (handleClick props3radio ⟨Checked.num (-1)⟩ 0).2 →
        Ev.changeCb ∈ rest) :=
  ⟨rfl, C7_commit_before_callbacks props3radio ⟨Checked.num (-1)⟩ 0 Mode.radio
    rfl rfl rfl⟩

/-- A scalar selection marks at most one of the children `0..n-1` checked. -/
lemma checkedCount_num_le_one (d : Int) (n : Nat) :
    checkedCount (Checked.num d) n ≤ 1 := by
  unfold checkedCount
  rcases le_or_lt 0 d with hz | hz
  · have hcongr : ∀ i ∈ List.range n,
        isChecked (Checked.num d) (Int.ofNat i) = (i == d.toNat) := by
      intro i _
      apply Bool.coe_iff_coe.mp
      show (d == Int.ofNat i) = true ↔ (i == d.toNat) = true
      simp only [beq_iff_eq, Int.ofNat_eq_coe]
      omega
    rw [List.filter_congr hcongr]
    have h1 : ((List.range n).filter (fun i => i == d.toNat)).length
        = (List.range n).count d.toNat := by
      simp [List.count, List.countP_eq_length_filter]
    rw [h1]
    exact List.nodup_iff_count_le_one.mp (List.nodup_range n) d.toNat
  · have hnil : (List.range n).filter
        (fun i => isChecked (Checked.num d) (Int.ofNat i)) = [] := by
      apply List.filter_eq_nil_iff.mpr
      intro i _
      show ¬(d == Int.ofNat i) = true
      simp only [beq_iff_eq, Int.ofNat_eq_coe]
      omega
    rw [hnil]
    simp

/-- A singleton-array selection marks at most one of the children checked. -/
lemma checkedCount_singleton_le_one (k : Int) (n : Nat) :
    checkedCount (Checked.arr [k]) n ≤ 1 := by
  have hcongr : ∀ i ∈ List.range n,
      isChecked (Checked.arr [k]) (Int.ofNat i)
        = isChecked (Checked.num k) (Int.ofNat i) := by
    intro i _
    show ([k].contains (Int.ofNat i)) = (k == Int.ofNat i)
    simp only [Int.ofNat_eq_coe]
    rcases eq_or_ne k ((i : Int)) with h | h
    · simp [h]
    · simp [h, Ne.symm h]
  unfold checkedCount
  rw [List.filter_congr hcongr]
  exact checkedCount_num_le_one k n

/-- `mode="radio"` with explicit `defaultChecked={[0,2]}` on three children. -/
def propsRadioArr02 : GroupProps :=
  { props3radio with defaultChecked := some (Checked.arr [0, 2]) }

/-- C8 (counterexample): in single-select (radio) mode an explicit array
default `[0, 2]` is taken verbatim by the initializer, so two of the three
children start out checked: the cardinality is 2, not 0 or 1. -/
theorem C8_counterexample :
    checkedCount (initialChecked propsRadioArr02) 3 = 2 := by
  decide

/-- C8 (amended): provided the explicit default is absent or a scalar index
(not an array), radio-mode initialization selects at most one child -- even
when several children are marked default-checked the scan takes only the
first -- and every uncontrolled radio click commits a singleton selection, so
the cardinality stays 0 or 1. -/
theorem C8_radio_cardinality (props : GroupProps) (st : State) (i : Int)
    (n : Nat) (hm : props.mode = some Mode.radio)
    (hd : props.defaultChecked = none ∨
      ∃ d, props.defaultChecked = some (Checked.num d))
    (hc : props.checked = none) :
    checkedCount (initialChecked props) n ≤ 1 ∧
    checkedCount (handleClick props st i).1.checked n ≤ 1 := by
  have hic : isControlled props = false := by simp [isControlled, hc]
  have hfd : ∃ l : List Int,
      findDefaultChecked props = Checked.arr l ∧ l.length ≤ 1 := by
    unfold findDefaultChecked
    rw [hm]
    cases hfi : props.children.findIdx? (fun c => c.defaultChecked) with
    | none => exact ⟨[], rfl, by simp⟩
    | some i0 => exact ⟨[(i0 : Int)], rfl, by simp⟩
  obtain ⟨l, hl, hlen⟩ := hfd
  have hcard_arr : checkedCount (Checked.arr l) n ≤ 1 := by
    match l, hlen with
    | [], _ => simp [checkedCount, isChecked]
    | [k], _ => exact checkedCount_singleton_le_one k n
  constructor
  · rcases hd with h | ⟨d, h⟩
    · have hinit : initialChecked props = Checked.arr l := by
        unfold initialChecked
        rw [h, hl]
        rfl
      rw [hinit]
      exact hcard_arr
    · by_cases hd0 : d = 0
      · have hinit : initialChecked props = Checked.arr l := by
          unfold initialChecked
          rw [h, hd0, hl]
          rfl
        rw [hinit]
        exact hcard_arr
      · have hinit : initialChecked props = Checked.num d := by
          unfold initialChecked
          rw [h]
          have ht : truthyChecked (Checked.num d) = true := by
            simp [truthyChecked, hd0]
          simp [ht]
        rw [hinit]
        exact checkedCount_num_le_one d n
  · have hnew : (handleClick props st i).1.checked = Checked.num i := by
      simp [handleClick, hm, hic, selectionUpdate]
    rw [hnew]
    exact checkedCount_num_le_one i n

/-- C8 amended witness: uncontrolled radio group with no explicit default,
clicking index 2, three children. -/
theorem C8_radio_cardinality_witness :
    props3radio.mode = some Mode.radio ∧
    checkedCount (initialChecked props3radio) 3 ≤ 1 ∧
    checkedCount (handleClick props3radio ⟨Checked.num (-1)⟩ 2).1.checked 3
      ≤ 1 :=
  ⟨rfl,
    (C8_radio_cardinality props3radio ⟨Checked.num (-1)⟩ 2 3 rfl
      (Or.inl rfl) rfl).1,
    (C8_radio_cardinality props3radio ⟨Checked.num (-1)⟩ 2 3 rfl
      (Or.inl rfl) rfl).2⟩

/-- The checkbox group with its child list shrunk to two children. -/
def shrunkProps : GroupProps :=
  { props3checkbox with children := [plainChild, plainChild] }

/-- C9 (counterexample): selection `[2]` while the child list shrinks from
three children to two: the state survives the props change untouched and
index 2 is still a member of the selection even though only indices 0 and 1
now address children -- no child appears checked while two are rendered, and
the stale index resurfaces as a checked child as soon as a third child is
rendered again.  The stale index is not dropped. -/
theorem C9_counterexample :
    stateAfterPropsChange ⟨Checked.arr [2]⟩ = ⟨Checked.arr [2]⟩ ∧
    isChecked (stateAfterPropsChange ⟨Checked.arr [2]⟩).checked 2 = true ∧
    checkedCount (stateAfterPropsChange ⟨Checked.arr [2]⟩).checked 2 = 0 ∧
    checkedCount (stateAfterPropsChange ⟨Checked.arr [2]⟩).checked 3 = 1 := by
  decide

/-- C9 (amended): the class has no lifecycle code pruning the selection when
the children change: the state carries over unchanged across every props
update, every selected index -- stale or not -- stays selected, and a render
after the change decorates the children from that same untouched selection. -/
theorem C9_stale_indices_retained (st : State) (i : Int) (props : GroupProps)
    (h : isChecked st.checked i = true) :
    stateAfterPropsChange st = st ∧
    isChecked (stateAfterPropsChange st).checked i = true ∧
    renderChildren props (stateAfterPropsChange st)
      = renderChildren props st :=
  ⟨rfl, h, rfl⟩

/-- C9 amended witness: selection `[2]`, rendering the shrunk group. -/
theorem C9_stale_indices_retained_witness :
    isChecked (Checked.arr [2]) 2 = true ∧
    (stateAfterPropsChange ⟨Checked.arr [2]⟩ = ⟨Checked.arr [2]⟩ ∧
      isChecked (stateAfterPropsChange ⟨Checked.arr [2]⟩).checked 2 = true ∧
      renderChildren shrunkProps (stateAfterPropsChange ⟨Checked.arr [2]⟩)
        = renderChildren shrunkProps ⟨Checked.arr [2]⟩) :=
  ⟨by decide,
    C9_stale_indices_retained ⟨Checked.arr [2]⟩ 2 shrunkProps (by decide)⟩

end ButtonGroup
